import Mathlib

/-!
Verification development for the asynchronous job pipeline of the
gcp-ai-bot backend (FastAPI app in `backend/app.py` with services
`file_processor.py` and `rfp_generator.py`).

The Python code is shallowly embedded: pure fragments become Lean
functions on `Nat`/`String`/`List`, stateful fragments become explicit
state-passing or a step relation on a record type, and fallible code
returns `Except`.  Python `int((a / b) * c)` on the small non-negative
integers appearing in the progress math is modelled as the exact floor
`(a * c) / b` (for these operand ranges the double-precision evaluation
agrees with the exact rational floor, and rounding is monotone, so the
bounds and monotonicity facts proved below transfer).
-/

deriving instance DecidableEq for Except

namespace GcpAiBot

/-! ## String helpers

Python string operations used by the code under verification:
`in` (substring test), `str.lower`, and the regular-expression search
`(\d+)%` performed by `transcription_progress` in `backend/app.py`.
-/

/-- Pointwise ASCII lowering, modelling Python `str.lower()` on the
ASCII messages produced by the pipeline. -/
def lowerStr (s : String) : String :=
  String.mk (s.data.map Char.toLower)

/-- Does the second list occur as a prefix of the first? -/
def listStartsWith : List Char → List Char → Bool
  | _, [] => true
  | [], _ :: _ => false
  | c :: cs, p :: ps => (c = p) && listStartsWith cs ps

/-- Does `pat` occur as a contiguous sublist of the first argument? -/
def listContainsSub : List Char → List Char → Bool
  | [], pat => pat.isEmpty
  | c :: cs, pat => listStartsWith (c :: cs) pat || listContainsSub cs pat

/-- Python `pat in s` substring test. -/
def containsSub (s pat : String) : Bool :=
  listContainsSub s.data pat.data

/-- Overall progress value written for an estimated transcription
percentage `pct`: `20 + int((pct / 95) * 20)` (`backend/app.py`
line 318). -/
def transcribeEst (pct : Nat) : Nat :=
  20 + pct * 20 / 95

/-- Piecewise mapping of the generator's inner percentage `p` (0-100)
onto overall job progress, from `progress_callback` in
`backend/app.py` lines 343-373 (the no-base-document copy at lines
383-410 is textually the same mapping). -/
def genPC (p : Nat) : Nat :=
  if p ≤ 20 then 42 + p * 5 / 20
  else if p ≤ 30 then 47 + (p - 20) * 8 / 10
  else if p ≤ 70 then 55 + (p - 30) * 15 / 40
  else if p ≤ 85 then 70 + (p - 70) * 10 / 15
  else 80 + (p - 85) * 8 / 15

/-! ## Job lifecycle (`backend/app.py`)

The in-memory `job_status` dict holds one record per job.  The record
is created `queued` by `upload_file` (lines 579-586), replaced by a
fresh `processing` record at the start of `process_file_background`
(lines 279-285), mutated by `update_job_progress` (lines 258-265), and
finally updated to `completed` (lines 437-449) or `failed` (the Drive
authentication failure at lines 429-434, or the catch-all handler at
lines 453-459).  `dict.update` semantics: fields not mentioned keep
their previous value.
-/

inductive JobState where
  | queued
  | processing
  | completed
  | failed
deriving DecidableEq, Repr

structure JobRecord where
  state : JobState
  progress : Nat
  message : String
  result : Option String
  error : Option String
deriving DecidableEq, Repr

/-- The record inserted by `upload_file` for an async job
(`backend/app.py` lines 580-586): `queued`, progress 0, no result, no
error. -/
def initQueued : JobRecord :=
  { state := JobState.queued
    progress := 0
    message := "File uploaded, processing started..."
    result := none
    error := none }

/-- The fresh record written at the start of `process_file_background`
(`backend/app.py` lines 279-285): the whole dict is replaced, so no
result or error field survives. -/
def processingInit : JobRecord :=
  { state := JobState.processing
    progress := 5
    message := "Starting file processing..."
    result := none
    error := none }

/-- One mutation of a job record by the pipeline driver, as performed
in `backend/app.py`.  The source guards: `update_job_progress` runs
only while the driver is mid-flight, and each terminal update is the
last mutation the driver performs (the function returns right after),
so every mutation fires from a non-terminal state. -/
inductive DriverStep : JobRecord → JobRecord → Prop where
  | start (j : JobRecord) :
      j.state = JobState.queued → DriverStep j processingInit
  | progress (j : JobRecord) (p : Nat) (m : String) :
      j.state = JobState.processing →
      DriverStep j { j with progress := p, message := m }
  | complete (j : JobRecord) (res : String) :
      j.state = JobState.processing →
      DriverStep j { j with state := JobState.completed, progress := 100,
                            message := "File processed successfully!",
                            result := some res }
  | authFail (j : JobRecord) (msg : String) :
      j.state = JobState.processing →
      DriverStep j { j with state := JobState.failed, error := some msg }
  | excFail (j : JobRecord) (msg : String) :
      j.state = JobState.processing →
      DriverStep j { j with state := JobState.failed, progress := 0,
                            message := "Error: " ++ msg, error := some msg }

/-- Job records observable through `GetStatus`: the initial queued
record and everything the driver can reach from it. -/
inductive ReachableJob : JobRecord → Prop where
  | init : ReachableJob initQueued
  | step {j k : JobRecord} : ReachableJob j → DriverStep j k → ReachableJob k

/-- Terminal-state result/error exclusivity, as the spec states it. -/
def resultErrorInv (j : JobRecord) : Prop :=
  match j.state with
  | JobState.completed => j.result.isSome ∧ j.error = none
  | JobState.failed => j.error.isSome ∧ j.result = none
  | _ => j.result = none ∧ j.error = none

/-! ## Audio transcription fallback chain
(`backend/services/file_processor.py`)

`transcribe_audio` (lines 161-214) tries Vertex AI Chirp first and, on
any exception, falls through to `_transcribe_with_speech_to_text`
(lines 334-441), which itself dispatches between synchronous
recognition and `_transcribe_long_audio` (lines 627-748).  Network
calls are external collaborators, so each engine's outcome is a
parameter of the model; the chain logic, the size dispatch, and the
message-text classification are translated from the source.
-/

/-- Error-class taxonomy of the outer handler of
`_transcribe_with_speech_to_text` (lines 430-441). -/
inductive SttClass where
  | connection
  | permission
  | quota
  | other
deriving DecidableEq, Repr

/-- Classification by message sniffing, from
`backend/services/file_processor.py` lines 434-439. -/
def sttClass (msg : String) : SttClass :=
  if containsSub msg "SSL" || containsSub (lowerStr msg) "decryption" then
    SttClass.connection
  else if containsSub (lowerStr msg) "permission" || containsSub msg "403" then
    SttClass.permission
  else if containsSub (lowerStr msg) "quota" || containsSub msg "429" then
    SttClass.quota
  else SttClass.other

/-- Message of the `ValueError` the outer handler of
`_transcribe_with_speech_to_text` raises for a non-`ValueError`
failure with message `msg` (lines 434-441). -/
def sttRender (msg : String) : String :=
  match sttClass msg with
  | SttClass.connection =>
      "SSL/connection error with Speech-to-Text API. Check credentials and network."
  | SttClass.permission =>
      "Permission denied. Check service account has Speech-to-Text API access."
  | SttClass.quota => "API quota exceeded. Please try again later."
  | SttClass.other => "Speech-to-Text API error: " ++ msg

/-- Does a synchronous-recognition error message indicate that the
audio exceeds the synchronous duration limit (the advancing condition
to the long-running tier), from lines 416-419. -/
def isSyncTooLongError (msg : String) : Bool :=
  containsSub msg "Sync input too long" ||
  containsSub msg "Inline audio exceeds duration limit" ||
  (containsSub msg "400" && containsSub (lowerStr msg) "too long") ||
  (containsSub msg "400" && containsSub (lowerStr msg) "exceeds duration limit")

def mb : Nat := 1024 * 1024

/-- Message of the `ValueError` raised when no speech is detected
(lines 390-391). -/
def noSpeechMsg : String :=
  "No speech detected in audio file. Please check the audio file and try again."

/-- Message of the Python `NameError` raised by the success branch of
`_transcribe_with_speech_to_text` at line 393: `progress_callback` is
referenced there but is not a parameter of that function (signature at
line 334 is `(self, file_path)`), not assigned locally, and not a
module-level name of `file_processor.py`, so Python name resolution
fails.  (The quotation marks Python puts around the name are elided.) -/
def nameErrMsg : String :=
  "name progress_callback is not defined"

/-- Message of the `ValueError` raised for an over-100MB file
(lines 352-356; the interpolated size figure is elided). -/
def tooLargeMsg : String :=
  "Audio file is too large. Maximum size is 100MB. Please use a shorter audio file or split it into smaller chunks."

/-- Result of one run of `_transcribe_with_speech_to_text`, together
with which recognition engines were actually invoked. -/
structure SttRun where
  result : Except String String
  syncInvoked : Bool
  longInvoked : Bool
deriving DecidableEq, Repr

/-- Model of `_transcribe_with_speech_to_text`
(`backend/services/file_processor.py` lines 334-441).
`syncOutcome` is the synchronous `recognize` collaborator's outcome
(result list, or the raised API error's message); `longOutcome` is the
outcome of `_transcribe_long_audio` (which only ever raises
`ValueError`, re-raised unchanged by the handler at line 427).
A successful synchronous call with non-empty results reaches the
undefined-name reference at line 393, so it raises `NameError`,
which the handler chain rewraps via `sttRender`. -/
def speechToTextRun (fileSize : Nat) (syncOutcome : Except String (List String))
    (longOutcome : Except String String) : SttRun :=
  if fileSize > 100 * mb then
    { result := Except.error tooLargeMsg, syncInvoked := false, longInvoked := false }
  else if fileSize > 10 * mb then
    { result := longOutcome, syncInvoked := false, longInvoked := true }
  else
    match syncOutcome with
    | Except.ok results =>
      if results.isEmpty then
        { result := Except.error noSpeechMsg, syncInvoked := true, longInvoked := false }
      else
        { result := Except.error (sttRender nameErrMsg), syncInvoked := true,
          longInvoked := false }
    | Except.error msg =>
      if isSyncTooLongError msg then
        { result := longOutcome, syncInvoked := true, longInvoked := true }
      else
        { result := Except.error (sttRender msg), syncInvoked := true,
          longInvoked := false }

/-- Message wrapping performed by `transcribe_audio` around a failure
of the Speech-to-Text tier (lines 178-189). -/
def sttWrap (m : String) : String :=
  if containsSub m "SSL" || containsSub (lowerStr m) "decryption" ||
      containsSub (lowerStr m) "stream removed" then
    "Audio transcription failed due to connection issues. Please check your network connection and Google Cloud credentials. Ensure GOOGLE_APPLICATION_CREDENTIALS is set correctly."
  else "Audio transcription failed: " ++ m

/-- Message raised when no transcription service is configured
(lines 191-208; condensed to the common prefix of both variants). -/
def noServiceMsg : String :=
  "Audio transcription requires Vertex AI or Speech-to-Text API setup."

/-- Result of a run of the whole fallback chain `transcribe_audio`,
with the set of invoked engines (tier 1 Chirp, tier 2 synchronous,
tier 3 long-running). -/
structure ChainRun where
  result : Except String String
  chirpInvoked : Bool
  syncInvoked : Bool
  longInvoked : Bool
deriving DecidableEq, Repr

/-- The tier 2/3 part of `transcribe_audio` (lines 173-208), shared by
both chain entry paths. -/
def chainTail (chirpWasInvoked : Bool) (speechAvail : Bool) (fileSize : Nat)
    (syncOutcome : Except String (List String))
    (longOutcome : Except String String) : ChainRun :=
  if speechAvail then
    let r := speechToTextRun fileSize syncOutcome longOutcome
    match r.result with
    | Except.ok t =>
      { result := Except.ok t, chirpInvoked := chirpWasInvoked,
        syncInvoked := r.syncInvoked, longInvoked := r.longInvoked }
    | Except.error m =>
      { result := Except.error (sttWrap m), chirpInvoked := chirpWasInvoked,
        syncInvoked := r.syncInvoked, longInvoked := r.longInvoked }
  else
    { result := Except.error noServiceMsg, chirpInvoked := chirpWasInvoked,
      syncInvoked := false, longInvoked := false }

/-- Model of the fallback chain `transcribe_audio`
(`backend/services/file_processor.py` lines 161-214): if Vertex AI is
initialized, Chirp (tier 1) is tried first and any exception at all
falls through (lines 165-171) to the Speech-to-Text tier. -/
def transcribeAudio (vertexInit speechAvail : Bool)
    (chirpOutcome : Except String String) (fileSize : Nat)
    (syncOutcome : Except String (List String))
    (longOutcome : Except String String) : ChainRun :=
  if vertexInit then
    match chirpOutcome with
    | Except.ok t =>
      { result := Except.ok t, chirpInvoked := true, syncInvoked := false,
        longInvoked := false }
    | Except.error _ =>
      chainTail true speechAvail fileSize syncOutcome longOutcome
  else
    chainTail false speechAvail fileSize syncOutcome longOutcome

/-! ## Chirp staging cleanup (`_transcribe_with_vertex_ai_chirp`,
lines 216-332)

The tier stages its input in GCS, then transcribes by reference.  The
`except` handler (lines 298-304) deletes the staged blob before
re-raising, but the success path (lines 283-296) returns the transcript
directly: the only success-path cleanup sits in the duplicated block at
lines 306-332, which is unreachable (it follows the `return` at
line 296 and the `raise` at line 304).
-/

/-- Model of `_transcribe_with_vertex_ai_chirp`.  First component: the
outcome; second: the list of staged blob names deleted during the run.
On an upload failure the local `blob_name` was never assigned, so the
handler's `if blob_name in locals()` guard skips deletion. -/
def chirpTranscribe (uploadOutcome : Except String (String × String))
    (recognizeOutcome : Except String (List String)) :
    Except String String × List String :=
  match uploadOutcome with
  | Except.error msg =>
    (Except.error ("Vertex AI Chirp transcription failed: " ++ msg), [])
  | Except.ok (_gcsUri, blobName) =>
    match recognizeOutcome with
    | Except.error msg =>
      (Except.error ("Vertex AI Chirp transcription failed: " ++ msg), [blobName])
    | Except.ok parts =>
      if parts.isEmpty then
        (Except.error ("Vertex AI Chirp transcription failed: " ++ noSpeechMsg),
          [blobName])
      else
        (Except.ok (String.intercalate " " parts), [])

/-! ## Long-running poll loop (`_transcribe_long_audio`,
lines 666-722)

The loop body checks `operation.done()`, optionally emits an
elapsed-time progress estimate, and sleeps 2 seconds
(`asyncio.sleep(2)`, line 703).  The loop condition is `while True`
with the only exit being the `done` check: the body contains no
comparison of elapsed time against any cap, even though the comment at
line 667 speaks of a 10 minute timeout.
-/

/-- Seconds slept between polls (`asyncio.sleep(2)`, line 703). -/
def pollSleepSeconds : Nat := 2

/-- The poll loop, observed for `fuel` iterations starting at
iteration `i`: `some k` means the backing operation reported done at
check `k`; `none` means the loop is still polling after `fuel` more
checks.  Translated from the `while True` loop at lines 680-703: the
body has no other exit. -/
def pollLoopAux (doneAt : Nat → Bool) (i : Nat) : Nat → Option Nat
  | 0 => none
  | fuel + 1 => if doneAt i then some i else pollLoopAux doneAt (i + 1) fuel

/-- The poll loop from its start. -/
def pollLoop (doneAt : Nat → Bool) (fuel : Nat) : Option Nat :=
  pollLoopAux doneAt 0 fuel

/-! ## Content generation (`backend/services/rfp_generator.py`)

`_generate_all_sections_at_once` (lines 312-390) makes one combined
LLM call and parses its JSON answer with `_parse_sections_json`
(lines 440-487); `_generate_sections_one_by_one` (lines 392-438) is the
per-section fallback, and `generate_rfp_summary` (lines 142-169)
aggregates token statistics over `generation_steps`.
`json.loads` is a library collaborator, so its outcome on the stripped
response text is a parameter: a parsed JSON object (association list in
iteration order), a `JSONDecodeError`, or a parsed non-object value
(on which the subsequent `.items()` raises `AttributeError`).
-/

/-- Placeholder substituted when JSON parsing of the batch response
fails (`rfp_generator.py` line 487). -/
def parseFailPlaceholder : String :=
  "[PLACEHOLDER: Failed to parse AI response]"

/-- Placeholder substituted for a requested section absent from the
parsed response (`rfp_generator.py` line 479). -/
def missingPlaceholder : String :=
  "[PLACEHOLDER: Information not available from provided content]"

/-- Outcome of `json.loads` on the (regex-extracted, markdown-stripped)
batch response text. -/
inductive JsonParseOutcome where
  | objParsed (entries : List (String × String))
  | decodeFailed
  | nonObject
deriving Repr

/-- First value bound to an exactly matching key. -/
def lookupExact : List (String × String) → String → Option String
  | [], _ => none
  | (k, v) :: rest, s => if k = s then some v else lookupExact rest s

/-- First value bound to a case-insensitively matching key, in object
iteration order (`rfp_generator.py` lines 470-475). -/
def lookupCI : List (String × String) → String → Option String
  | [], _ => none
  | (k, v) :: rest, s =>
    if lowerStr k = lowerStr s then some v else lookupCI rest s

/-- Section lookup for one requested name (`rfp_generator.py`
lines 464-479): exact match, then case-insensitive match, then the
missing-content placeholder. -/
def sectionLookup (entries : List (String × String)) (s : String) : String :=
  match lookupExact entries s with
  | some v => v
  | none =>
    match lookupCI entries s with
    | some v => v
    | none => missingPlaceholder

/-- Model of `_parse_sections_json` (lines 440-487): a
`JSONDecodeError` is caught internally and yields the parse-failure
placeholder for every requested section; a parsed non-object raises
(`.items()` fails), which propagates out of the function. -/
def parseSectionsJson (out : JsonParseOutcome) (sections : List String) :
    Except Unit (List (String × String)) :=
  match out with
  | JsonParseOutcome.objParsed entries =>
    Except.ok (sections.map (fun s => (s, sectionLookup entries s)))
  | JsonParseOutcome.decodeFailed =>
    Except.ok (sections.map (fun s => (s, parseFailPlaceholder)))
  | JsonParseOutcome.nonObject => Except.error ()

/-- Result of the batch generation tier, recording whether the
per-section fallback tier ran. -/
structure BatchOutcome where
  sections : List (String × String)
  fallbackInvoked : Bool
deriving DecidableEq, Repr

/-- Model of `_generate_all_sections_at_once` (lines 312-390): the
result of `_parse_sections_json` is returned directly (line 371-374);
the `except` branch at lines 381-390 — the only route to
`_generate_sections_one_by_one` — fires only when an exception
propagates, which a `JSONDecodeError` never does.
`oneByOne` stands for the per-section tier's section map. -/
def generateAllSectionsAtOnce (out : JsonParseOutcome) (sections : List String)
    (oneByOne : List (String × String)) : BatchOutcome :=
  match parseSectionsJson out sections with
  | Except.ok m => { sections := m, fallbackInvoked := false }
  | Except.error _ => { sections := oneByOne, fallbackInvoked := true }

/-- One entry of `generation_steps`: a Python dict whose token fields
may be absent (error steps carry none). -/
structure StepTok where
  name : String
  inputTokens : Option Nat
  outputTokens : Option Nat
  totalTokens : Option Nat
deriving DecidableEq, Repr

/-- The step appended for one LLM generation attempt reporting
`inp`/`outp` usage: both tracing helpers
(`_call_llm_with_tracing_json` lines 581-589, `_call_llm_with_tracing`
lines 799-808) record input, output, and their sum. -/
def attemptStep (nm : String) (inp outp : Nat) : StepTok :=
  { name := nm, inputTokens := some inp, outputTokens := some outp,
    totalTokens := some (inp + outp) }

/-- Sum of a token field over steps, absent fields counting zero —
the aggregation idiom of `generate_rfp_summary` lines 151-157 and
`_generate_sections_one_by_one` lines 428-430. -/
def optSum (f : StepTok → Option Nat) (steps : List StepTok) : Nat :=
  steps.foldl (fun acc s => acc + (f s).getD 0) 0

/-- The `token_summary` step appended by `_generate_aligned_with_base`
(lines 236-242) and `_generate_with_vertex_ai` (lines 655-661) with the
`token_stats` the batch/per-section tier returned. -/
def mkTokenSummary (inp outp tot : Nat) : StepTok :=
  { name := "token_summary", inputTokens := some inp,
    outputTokens := some outp, totalTokens := some tot }

/-- Final `generation_steps` list: the attempt (and error) steps
appended by the tracing helpers, followed by the `token_summary` step,
whose numbers are in both code paths the `optSum` of the preceding
steps (the batch path returns the single batch attempt's own stats,
the per-section path sums over `generation_steps` at lines 428-430). -/
def stepsWithSummary (steps : List StepTok) : List StepTok :=
  steps ++ [mkTokenSummary (optSum StepTok.inputTokens steps)
    (optSum StepTok.outputTokens steps) (optSum StepTok.totalTokens steps)]

/-- Aggregated `input_tokens` of `generate_rfp_summary`
(lines 151-153, 160). -/
def statsInput (steps : List StepTok) : Nat :=
  optSum StepTok.inputTokens steps

/-- Aggregated `output_tokens` (lines 154-155, 161). -/
def statsOutput (steps : List StepTok) : Nat :=
  optSum StepTok.outputTokens steps

/-- Aggregated `total_tokens` (lines 156-157, 162): the summed
`total_tokens` fields if positive, otherwise input plus output. -/
def statsTotal (steps : List StepTok) : Nat :=
  let t := optSum StepTok.totalTokens steps
  if t > 0 then t else statsInput steps + statsOutput steps

/-! ## Upload streaming and size enforcement (`upload_file`,
`backend/app.py` lines 537-597)

The streaming loop writes 1MB chunks to the temp file, checking the
accumulated size *before* writing each chunk; on overflow it raises
`HTTPException(400)`, the handler at lines 567-571 removes the temp
file and re-raises, and the function is left before any job record is
created (job creation happens at lines 579-586, after streaming).
-/

/-- The streaming loop (lines 548-564).  Arguments: remaining chunk
sizes and bytes written so far.  Returns (bytes written, aborted?): a
zero-length chunk means end of stream; a chunk pushing the running
total over `maxSize` aborts before that chunk is written. -/
def streamChunks (maxSize : Nat) : List Nat → Nat → Nat × Bool
  | [], written => (written, false)
  | c :: rest, written =>
    if c = 0 then (written, false)
    else if written + c > maxSize then (written, true)
    else streamChunks maxSize rest (written + c)

/-- Observable outcome of the upload request around the streaming
write. -/
structure UploadOutcome where
  httpStatus : Nat
  tempRemoved : Bool
  jobCreated : Bool
  bytesWritten : Nat
deriving DecidableEq, Repr

/-- Model of `upload_file` from the start of the streaming write
(line 541): on abort the temp file is unlinked and the 400 error
propagates (no job record is ever created); on success the async path
creates a queued job and hands the temp file to the background task,
while the sync path processes inline and removes the temp file in its
own cleanup. -/
def uploadFileStream (maxSize : Nat) (chunks : List Nat) (useAsync : Bool) :
    UploadOutcome :=
  match streamChunks maxSize chunks 0 with
  | (written, true) =>
    { httpStatus := 400, tempRemoved := true, jobCreated := false,
      bytesWritten := written }
  | (written, false) =>
    if useAsync then
      { httpStatus := 200, tempRemoved := false, jobCreated := true,
        bytesWritten := written }
    else
      { httpStatus := 200, tempRemoved := true, jobCreated := false,
        bytesWritten := written }

/-! ## Helper lemmas -/

/-- The poll loop with a never-completing operation is still polling
after any number of checks, from any starting iteration. -/
theorem pollLoopAux_neverDone (fuel : Nat) :
    ∀ i, pollLoopAux (fun _ => false) i fuel = none := by
  induction fuel with
  | zero => intro i; rfl
  | succ n ih => intro i; simpa [pollLoopAux] using ih (i + 1)

/-- Summing an optional token field over a list with one extra step. -/
theorem optSum_append_single (f : StepTok → Option Nat) (xs : List StepTok)
    (s : StepTok) : optSum f (xs ++ [s]) = optSum f xs + (f s).getD 0 := by
  unfold optSum
  rw [List.foldl_append]
  rfl

/-- A stream of non-empty chunks whose total would overflow the limit
aborts, with at most `maxSize` bytes written. -/
theorem streamChunks_overflow_aborts (maxSize : Nat) :
    ∀ (chunks : List Nat) (written : Nat), (∀ c ∈ chunks, c ≠ 0) →
    written ≤ maxSize → written + chunks.sum > maxSize →
    ∃ w, streamChunks maxSize chunks written = (w, true) ∧ w ≤ maxSize := by
  intro chunks
  induction chunks with
  | nil => intro written _ hw hsum; simp at hsum; omega
  | cons c rest ih =>
    intro written hnz hw hsum
    have hc : c ≠ 0 := hnz c (by simp)
    unfold streamChunks
    simp only [hc, if_false]
    by_cases hover : written + c > maxSize
    · simp only [hover, if_true]
      exact ⟨written, rfl, hw⟩
    · simp only [hover, if_false]
      refine ih (written + c) (fun d hd => hnz d (by simp [hd])) (by omega) ?_
      simp at hsum
      omega

/-- The permission-denied message survives `transcribe_audio`'s final
wrapping unchanged apart from the prefix. -/
theorem sttWrap_permission :
    sttWrap "Permission denied. Check service account has Speech-to-Text API access." =
      "Audio transcription failed: Permission denied. Check service account has Speech-to-Text API access." := by
  decide

/-- The estimate remapping stays inside the transcription window. -/
theorem transcribeEst_bounds {pct : Nat} (h : pct ≤ 95) :
    20 ≤ transcribeEst pct ∧ transcribeEst pct ≤ 40 := by
  constructor
  · exact Nat.le_add_right 20 (pct * 20 / 95)
  · unfold transcribeEst
    have h2 : pct * 20 / 95 ≤ 95 * 20 / 95 :=
      Nat.div_le_div_right (Nat.mul_le_mul_right 20 h)
    omega

/-- The estimate remapping is monotone in the percentage. -/
theorem transcribeEst_mono {p1 p2 : Nat} (h : p1 ≤ p2) :
    transcribeEst p1 ≤ transcribeEst p2 :=
  Nat.add_le_add_left (Nat.div_le_div_right (Nat.mul_le_mul_right 20 h)) 20

/-! ## Claim theorems -/

/-- C1.  The audio-transcription stage does NOT always delete the
staged remote object: on the success path of the Vertex AI Chirp tier
the staged blob is never deleted.  Evaluating
`_transcribe_with_vertex_ai_chirp` at an execution in which the GCS
upload and the recognition both succeed: the tier returns the
transcript and its deletion list is empty, so the staged object
`speech-temp/x.wav` remains (the success-path cleanup exists only in
the unreachable duplicated block after the `return`). -/
theorem c1_chirp_success_leaves_staged_object :
    chirpTranscribe
        (Except.ok ("gs://bucket/speech-temp/x.wav", "speech-temp/x.wav"))
        (Except.ok ["hello world"]) =
      (Except.ok "hello world", ([] : List String)) ∧
    "speech-temp/x.wav" ∉ ([] : List String) := by
  constructor
  · rfl
  · simp

/-- C4.  The long-running transcription poll loop sleeps a fixed 2
seconds between checks, but enforces no bound on the total wait: for a
backing operation that never completes, the loop is still polling
after any number of checks, so it never returns a
`TranscriptionTimeout` failure (contradicting the comment at
`file_processor.py` line 667 announcing a 10 minute timeout). -/
theorem c4_poll_loop_never_times_out :
    (∀ fuel : Nat, pollLoop (fun _ => false) fuel = none) ∧
    pollSleepSeconds = 2 := by
  constructor
  · intro fuel
    exact pollLoopAux_neverDone fuel 0
  · rfl

/-- C5.  In every job record reachable through the driver's mutations,
exactly one of result/error is set in a terminal state, and neither is
set while the job is queued or processing. -/
theorem c5_terminal_result_error_exclusive (j : JobRecord)
    (h : ReachableJob j) : resultErrorInv j := by
  induction h with
  | init => simp [resultErrorInv, initQueued]
  | @step j k hr hs ih =>
    cases hs with
    | start hq => simp [resultErrorInv, processingInit]
    | progress p m hp =>
      obtain ⟨st, pr, ms, res, err⟩ := j
      simp only at hp
      subst hp
      simpa [resultErrorInv] using ih
    | complete res0 hp =>
      obtain ⟨st, pr, ms, res, err⟩ := j
      simp only at hp
      subst hp
      simp only [resultErrorInv] at ih
      simp [resultErrorInv, ih.2]
    | authFail msg hp =>
      obtain ⟨st, pr, ms, res, err⟩ := j
      simp only at hp
      subst hp
      simp only [resultErrorInv] at ih
      simp [resultErrorInv, ih.1]
    | excFail msg hp =>
      obtain ⟨st, pr, ms, res, err⟩ := j
      simp only at hp
      subst hp
      simp only [resultErrorInv] at ih
      simp [resultErrorInv, ih.1]

/-- C5 witness: the invariant holds at the concrete initial queued
record. -/
theorem c5_witness : resultErrorInv initQueued :=
  c5_terminal_result_error_exclusive initQueued ReachableJob.init

/-- C6.  The driver's progress-mapping functions keep every inner
percentage inside the window configured for their stage and are
monotonically non-decreasing: the generation mapping sends 0-100 into
[42, 88], and the transcription estimate mapping sends 0-95 into
[20, 40]. -/
theorem c6_progress_mapping_in_window_monotone :
    (∀ p, p ≤ 100 → 42 ≤ genPC p ∧ genPC p ≤ 88) ∧
    (∀ q, q ≤ 100 → ∀ p, p ≤ q → genPC p ≤ genPC q) ∧
    (∀ p, p ≤ 95 → 20 ≤ transcribeEst p ∧ transcribeEst p ≤ 40) ∧
    (∀ q, q ≤ 95 → ∀ p, p ≤ q → transcribeEst p ≤ transcribeEst q) := by
  refine ⟨by decide, by decide, ?_, ?_⟩
  · intro p hp
    exact transcribeEst_bounds hp
  · intro q _ p hpq
    exact transcribeEst_mono hpq

/-- C6 witness: the mapping evaluated at concrete percentages. -/
theorem c6_witness :
    (42 ≤ genPC 50 ∧ genPC 50 ≤ 88) ∧ genPC 30 ≤ genPC 70 ∧
    (20 ≤ transcribeEst 40 ∧ transcribeEst 40 ≤ 40) :=
  ⟨c6_progress_mapping_in_window_monotone.1 50 (by decide),
   c6_progress_mapping_in_window_monotone.2.1 70 (by decide) 30 (by decide),
   c6_progress_mapping_in_window_monotone.2.2.1 40 (by decide)⟩

/-- C3 counterexample.  A tier-1 (Chirp) failure whose message is
classified `PermissionDenied` does NOT abort the chain: the
synchronous tier is invoked anyway, because `transcribe_audio` falls
through to Speech-to-Text on any Chirp exception
(`file_processor.py` lines 165-171). -/
theorem c3_tier1_permission_advance_counterexample :
    sttClass "403 The caller does not have permission" =
      SttClass.permission ∧
    (transcribeAudio true true
        (Except.error "403 The caller does not have permission") 1000
        (Except.error "403 The caller does not have permission")
        (Except.ok "")).syncInvoked = true :=
  ⟨by decide, by decide⟩

/-- C3 (amended).  The non-advancing behaviour sits one tier down:
after a Chirp failure the synchronous tier is always invoked, and if
the synchronous tier fails with an error classified
`PermissionDenied` (and not as a duration-limit error), the
long-running tier is never invoked and the chain returns the
permission failure. -/
theorem c3_amended_sync_permission_aborts (cm m : String) (fs : Nat)
    (lo : Except String String) (hfs : fs ≤ 10 * mb)
    (hperm : sttClass m = SttClass.permission)
    (htl : isSyncTooLongError m = false) :
    (transcribeAudio true true (Except.error cm) fs (Except.error m)
        lo).syncInvoked = true ∧
    (transcribeAudio true true (Except.error cm) fs (Except.error m)
        lo).longInvoked = false ∧
    (transcribeAudio true true (Except.error cm) fs (Except.error m)
        lo).result = Except.error
      "Audio transcription failed: Permission denied. Check service account has Speech-to-Text API access." := by
  have h100 : ¬ (fs > 100 * mb) := by unfold mb at *; omega
  have h10 : ¬ (fs > 10 * mb) := by unfold mb at *; omega
  have hrender : sttRender m =
      "Permission denied. Check service account has Speech-to-Text API access." := by
    unfold sttRender
    rw [hperm]
  have hrun : speechToTextRun fs (Except.error m) lo =
      { result := Except.error (sttRender m), syncInvoked := true,
        longInvoked := false } := by
    unfold speechToTextRun
    simp [h100, h10, htl]
  unfold transcribeAudio chainTail
  simp [hrun, hrender, sttWrap_permission]

/-- C3 witness: the amended statement at a concrete permission
failure. -/
theorem c3_amended_witness :
    (transcribeAudio true true (Except.error "chirp init failed") 0
        (Except.error "403 The caller does not have permission")
        (Except.ok "")).syncInvoked = true ∧
    (transcribeAudio true true (Except.error "chirp init failed") 0
        (Except.error "403 The caller does not have permission")
        (Except.ok "")).longInvoked = false ∧
    (transcribeAudio true true (Except.error "chirp init failed") 0
        (Except.error "403 The caller does not have permission")
        (Except.ok "")).result = Except.error
      "Audio transcription failed: Permission denied. Check service account has Speech-to-Text API access." :=
  c3_amended_sync_permission_aborts "chirp init failed"
    "403 The caller does not have permission" 0 (Except.ok "")
    (by decide) (by decide) (by decide)

/-- C7 counterexample.  When JSON parsing of the batch response fails
with a decode error, the batch tier completes with the parse-failure
placeholder for every requested section and the per-section fallback
tier is NOT invoked. -/
theorem c7_parse_failure_no_fallback_counterexample :
    generateAllSectionsAtOnce JsonParseOutcome.decodeFailed
        ["Executive Summary", "Introduction"] [] =
      { sections := [("Executive Summary", parseFailPlaceholder),
                     ("Introduction", parseFailPlaceholder)],
        fallbackInvoked := false } := by
  rfl

/-- C7 (amended).  A JSON decode failure is absorbed inside
`_parse_sections_json`, so the batch tier completes with placeholder
content for every section; the sequential per-section tier runs only
when parsing raises through (a parsed non-object value). -/
theorem c7_amended_parse_failure_completes_with_placeholders :
    (∀ (sections : List String) (oneByOne : List (String × String)),
      generateAllSectionsAtOnce JsonParseOutcome.decodeFailed sections
          oneByOne =
        { sections := sections.map (fun s => (s, parseFailPlaceholder)),
          fallbackInvoked := false }) ∧
    (∀ (sections : List String) (oneByOne : List (String × String)),
      generateAllSectionsAtOnce JsonParseOutcome.nonObject sections
          oneByOne =
        { sections := oneByOne, fallbackInvoked := true }) := by
  constructor <;> intro sections oneByOne <;> rfl

/-- C8 counterexample.  A run with a single batch attempt reporting
10 input and 5 output tokens yields aggregated statistics of 20 input
tokens (and 30 total), not the attempt sum 10 (and 15): each attempt
is counted twice, once in its own step and once via the
`token_summary` step. -/
theorem c8_token_double_count_counterexample :
    statsInput (stepsWithSummary [attemptStep "all_sections_batch" 10 5]) =
      20 ∧
    optSum StepTok.inputTokens [attemptStep "all_sections_batch" 10 5] =
      10 ∧
    statsTotal (stepsWithSummary [attemptStep "all_sections_batch" 10 5]) =
      30 ∧
    (20 : Nat) ≠ 10 :=
  ⟨by decide, by decide, by decide, by decide⟩

/-- C8 (amended).  The aggregated statistics equal exactly twice the
sum of the individual attempts' reported usage, because the
`token_summary` step duplicates the per-attempt sums before the final
aggregation sums over all steps. -/
theorem c8_amended_stats_double_attempt_usage :
    ∀ steps : List StepTok,
      statsInput (stepsWithSummary steps) =
        2 * optSum StepTok.inputTokens steps ∧
      statsOutput (stepsWithSummary steps) =
        2 * optSum StepTok.outputTokens steps ∧
      statsTotal (stepsWithSummary steps) =
        (if 0 < optSum StepTok.totalTokens steps then
          2 * optSum StepTok.totalTokens steps
         else
          2 * (optSum StepTok.inputTokens steps +
            optSum StepTok.outputTokens steps)) := by
  intro steps
  unfold statsTotal statsInput statsOutput stepsWithSummary
  simp only [optSum_append_single, mkTokenSummary, Option.getD_some]
  refine ⟨by ring, by ring, ?_⟩
  split <;> split <;> omega

/-- C9 counterexample.  A stream of 60-byte chunks against a 100-byte
limit: the write aborts with 60 bytes written and the temp file
removed, but no job record is ever created, so no job transitions to
`Failed` (the request fails with HTTP 400 before job creation). -/
theorem c9_size_exceeded_no_job_counterexample :
    uploadFileStream 100 [60, 60] true =
      { httpStatus := 400, tempRemoved := true, jobCreated := false,
        bytesWritten := 60 } ∧
    (uploadFileStream 100 [60, 60] true).jobCreated = false :=
  ⟨by rfl, by rfl⟩

/-- C9 (amended).  For every oversized upload the streaming write
aborts before completion with at most `maxSize` bytes written, the
partial temp file is removed, and the request fails with HTTP 400; no
job is created, so no job transitions to `Failed`. -/
theorem c9_amended_size_abort_400_no_job (maxSize : Nat)
    (chunks : List Nat) (useAsync : Bool) (hnz : ∀ c ∈ chunks, c ≠ 0)
    (hsum : maxSize < chunks.sum) :
    (uploadFileStream maxSize chunks useAsync).httpStatus = 400 ∧
    (uploadFileStream maxSize chunks useAsync).tempRemoved = true ∧
    (uploadFileStream maxSize chunks useAsync).jobCreated = false ∧
    (uploadFileStream maxSize chunks useAsync).bytesWritten ≤ maxSize := by
  obtain ⟨w, hw, hwle⟩ := streamChunks_overflow_aborts maxSize chunks 0 hnz
    (Nat.zero_le maxSize) (by omega)
  unfold uploadFileStream
  rw [hw]
  exact ⟨rfl, rfl, rfl, hwle⟩

/-- C9 witness: the amended statement at a concrete oversized
stream. -/
theorem c9_amended_witness :
    (uploadFileStream 100 [101] false).httpStatus = 400 ∧
    (uploadFileStream 100 [101] false).tempRemoved = true ∧
    (uploadFileStream 100 [101] false).jobCreated = false ∧
    (uploadFileStream 100 [101] false).bytesWritten ≤ 100 :=
  c9_amended_size_abort_400_no_job 100 [101] false (by decide) (by decide)

/-- C10.  For every audio file within the 10MB inline limit, whenever
synchronous recognition succeeds with non-empty results, the tier
still fails: the success branch references `progress_callback`, which
is not defined in the scope of `_transcribe_with_speech_to_text`, so
the resulting `NameError` is rewrapped by the outer handler and the
successful-return branch is unreachable. -/
theorem c10_sync_success_path_raises (fs : Nat) (results : List String)
    (lo : Except String String) (hfs : fs ≤ 10 * mb)
    (hne : results ≠ []) :
    (speechToTextRun fs (Except.ok results) lo).result =
      Except.error (sttRender nameErrMsg) ∧
    sttRender nameErrMsg =
      "Speech-to-Text API error: name progress_callback is not defined" ∧
    (speechToTextRun fs (Except.ok results) lo).longInvoked = false := by
  have h100 : ¬ (fs > 100 * mb) := by unfold mb at *; omega
  have h10 : ¬ (fs > 10 * mb) := by unfold mb at *; omega
  have hie : results.isEmpty = false := by
    cases results with
    | nil => exact absurd rfl hne
    | cons a l => rfl
  refine ⟨?_, by decide, ?_⟩
  · unfold speechToTextRun
    simp [h100, h10, hie]
  · unfold speechToTextRun
    simp [h100, h10, hie]

/-- C10 witness: the unreachable success branch at a concrete
successful synchronous recognition. -/
theorem c10_witness :
    (speechToTextRun 0 (Except.ok ["hi"]) (Except.ok "")).result =
      Except.error (sttRender nameErrMsg) ∧
    sttRender nameErrMsg =
      "Speech-to-Text API error: name progress_callback is not defined" ∧
    (speechToTextRun 0 (Except.ok ["hi"]) (Except.ok "")).longInvoked =
      false :=
  c10_sync_success_path_raises 0 ["hi"] (Except.ok "") (by decide)
    (by decide)

end GcpAiBot
